import Mathlib

/-!
Shallow embedding of `src/ai-agents/main.py` (Smart Transit AI Agents service).

The service is a single FastAPI process with four helper classes
(DataAggregationAgent, RouteOptimizationAgent, PersonalizationAgent,
LanguageAgent) and three endpoints.  All interesting behaviour is pure
computation over literals plus one outbound HTTP GET; we model the outbound
call's possible outcomes as an inductive type and thread the mutable
personalization dictionary as an explicit state argument.
-/

namespace SmartTransit

/-- Minimal JSON scalar values, enough for the health-check bodies and the
fallback object `{"status": "backend_offline", "using_cache": True}`. -/
inductive JVal where
  | str (s : String)
  | bool (b : Bool)
  | num (n : Int)
deriving DecidableEq, Repr

/-- A JSON object, as an ordered association list (Python dict). -/
abbrev JObj := List (String × JVal)

/-- Python `d.get(k)`: the value at key `k`, or `None` when absent. -/
def jget (o : JObj) (k : String) : Option JVal :=
  (o.find? (fun kv => kv.1 == k)).map (·.2)

/-- Pydantic model `RouteRequest` (main.py lines 13-18), with its defaults. -/
structure RouteRequest where
  origin : String
  destination : String
  language : String := "en"
  mode_preference : String := "fastest"
  accessibility_needs : Bool := false
deriving DecidableEq, Repr

/-- Pydantic model `RouteOption` (main.py lines 20-25). -/
structure RouteOption where
  mode : String
  duration : String
  cost : String
  steps : List String
  accessibility_score : Int
deriving DecidableEq, Repr

/-- First literal route option of `optimize_route` (main.py lines 59-65). -/
def trainBusOption : RouteOption :=
  { mode := "Train + Bus"
    duration := "2h 15m"
    cost := "Rs. 180"
    steps := ["Walk to Fort Station (3min)", "Train to Galle (1h 50m)",
              "Walk to destination (5min)"]
    accessibility_score := 8 }

/-- Second literal route option of `optimize_route` (main.py lines 66-72). -/
def expressBusOption : RouteOption :=
  { mode := "Express Bus"
    duration := "2h 45m"
    cost := "Rs. 250"
    steps := ["Walk to bus stop (2min)", "Express bus to Galle (2h 35m)",
              "Walk to destination (3min)"]
    accessibility_score := 6 }

/-- `base_routes` literal list (main.py line 58). -/
def base_routes : List RouteOption := [trainBusOption, expressBusOption]

/-! ### Python string primitives, modelled structurally over `String.data`
(the core `String` operations use well-founded recursion and do not reduce
in the kernel, so the relevant Python primitives are re-expressed as
structural recursions on the character list). -/

/-- Characters of a string with every occurrence of `pat` replaced by `rep`,
front to back and non-overlapping, as Python `str.replace` does.  The
recursion is structural in a fuel argument; each step consumes at least one
character when `pat` is nonempty, so fuel equal to the list length never
runs out at `pyReplace`'s call. -/
def replaceFuel (pat rep : List Char) : Nat → List Char → List Char
  | 0, l => l
  | _ + 1, [] => []
  | fuel + 1, c :: cs =>
      if pat ≠ [] ∧ (c :: cs).take pat.length = pat then
        rep ++ replaceFuel pat rep fuel ((c :: cs).drop pat.length)
      else
        c :: replaceFuel pat rep fuel cs

/-- Python `s.replace(pat, rep)`: replace all occurrences.  (Python's
empty-pattern behaviour is not modelled; the one call site uses the
nonempty pattern "Rs. ".) -/
def pyReplace (s pat rep : String) : String :=
  ⟨replaceFuel pat.data rep.data s.data.length s.data⟩

/-- Decimal value of an ASCII digit character, `none` otherwise. -/
def digitVal (c : Char) : Option Nat :=
  if 48 ≤ c.toNat ∧ c.toNat ≤ 57 then some (c.toNat - 48) else none

/-- Accumulate decimal digits; `none` as soon as a non-digit appears. -/
def digitsToNat (acc : Nat) : List Char → Option Nat
  | [] => some acc
  | c :: cs =>
      match digitVal c with
      | some d => digitsToNat (acc * 10 + d) cs
      | none => none

/-- Python `int(s)` on a string: optional sign followed by one or more
decimal digits; `none` models the `ValueError` raised otherwise.
(Surrounding whitespace and underscore separators, which Python also
tolerates, never occur at the one call site and are not modelled.) -/
def pyInt (s : String) : Option Int :=
  match s.data with
  | [] => none
  | '-' :: ds => if ds = [] then none else (digitsToNat 0 ds).map (fun n => -(n : Int))
  | '+' :: ds => if ds = [] then none else (digitsToNat 0 ds).map (fun n => (n : Int))
  | ds => (digitsToNat 0 ds).map (fun n => (n : Int))

/-- Python string `<`: lexicographic comparison of the code-point
sequences. -/
def strLtList : List Char → List Char → Bool
  | [], [] => false
  | [], _ :: _ => true
  | _ :: _, [] => false
  | a :: as, b :: bs =>
      if a.toNat < b.toNat then true
      else if b.toNat < a.toNat then false
      else strLtList as bs

/-- Python string `≤` (the ordering `sorted` effectively uses when placing
an element no later than a strictly greater one): `a ≤ b ↔ ¬ b < a`. -/
def pyStrLe (a b : String) : Bool := !(strLtList b.data a.data)

/-- Stable insertion used by `sortedPy`: insert `x` before the first element
`y` with `le x y`, matching the placement a stable sort gives an element
relative to the already-sorted elements that followed it. -/
def insertLe {α : Type} (le : α → α → Bool) (x : α) : List α → List α
  | [] => [x]
  | y :: ys => if le x y then x :: y :: ys else y :: insertLe le x ys

/-- Python's stable `sorted` on a list, with a boolean `≤` on sort keys. -/
def sortedPy {α : Type} (le : α → α → Bool) : List α → List α
  | [] => []
  | x :: xs => insertLe le x (sortedPy le xs)

/-- Sort key of the "cheapest" branch (main.py line 77):
`int(x.cost.replace("Rs. ", ""))`.  Python `int()` raises on a non-numeric
string; both literal cost strings parse, so the `getD 0` default is never
exercised by the source. -/
def costKey (x : RouteOption) : Int :=
  (pyInt (pyReplace x.cost "Rs. " "")).getD 0

/-- `RouteOptimizationAgent.optimize_route` (main.py lines 56-81). -/
def optimize_route (request : RouteRequest) : List RouteOption :=
  if request.mode_preference = "cheapest" then
    sortedPy (fun a b => decide (costKey a ≤ costKey b)) base_routes
  else if request.mode_preference = "fastest" then
    sortedPy (fun a b => pyStrLe a.duration b.duration) base_routes
  else
    base_routes

/-! ### Data aggregation (DataAggregationAgent) -/

/-- Possible outcomes of `requests.get("http://localhost:3000/api/health")`
(main.py line 35).  `netError` covers every exception raised by the GET
itself (connection error, timeout, DNS failure); `response status jsonOk
body` is a completed HTTP response where `jsonOk` records whether
`response.json()` parses (a malformed body makes `.json()` raise). -/
inductive HealthOutcome where
  | netError
  | response (status : Nat) (jsonOk : Bool) (body : JObj)
deriving DecidableEq, Repr

/-- The fallback object of the bare `except` branch (main.py line 39). -/
def fallbackData : JObj :=
  [("status", .str "backend_offline"), ("using_cache", .bool true)]

/-- `DataAggregationAgent.get_transport_data` (main.py lines 32-39).
Inside the `try`: when the GET raises, or `response.json()` raises, the bare
`except` returns the fallback object.  When `status_code == 200` and the
body parses, the body is returned.  When `status_code != 200` no branch
returns and no exception is raised, so the Python function falls off the
end and returns `None` — modelled as `none`. -/
def get_transport_data : HealthOutcome → Option JObj
  | .netError => some fallbackData
  | .response status jsonOk body =>
      if status = 200 then
        if jsonOk then some body else some fallbackData
      else
        none

/-- A row of the static route network (main.py lines 45-47). -/
structure RouteNetworkEntry where
  id : Nat
  name : String
  modes : List String
  distance : Nat
deriving DecidableEq, Repr

/-- The static route-network object (main.py lines 43-50). -/
structure RouteNetwork where
  routes : List RouteNetworkEntry
  real_time_status : String
deriving DecidableEq, Repr

/-- `DataAggregationAgent.get_sri_lankan_routes` (main.py lines 41-50). -/
def get_sri_lankan_routes : RouteNetwork :=
  { routes :=
      [ { id := 1, name := "Colombo-Galle", modes := ["train", "bus"], distance := 119 }
      , { id := 2, name := "Colombo-Kandy", modes := ["train", "bus"], distance := 115 }
      , { id := 3, name := "Colombo-Negombo", modes := ["bus"], distance := 37 } ]
    real_time_status := "active" }

/-! ### Personalization (PersonalizationAgent) -/

/-- A stored preference record `{"mode": ..., "accessibility": ...}`
(§3 PreferenceRecord of the spec; the shape of the default at
main.py line 96). -/
structure Pref where
  mode : String
  accessibility : Bool
deriving DecidableEq, Repr

/-- The mutable dictionary `self.user_preferences` (main.py line 86),
modelled as a partial map from user ids to records. -/
abbrev PrefStore := String → Option Pref

/-- The freshly-initialized empty dictionary (main.py line 86). -/
def emptyStore : PrefStore := fun _ => none

/-- `PersonalizationAgent.learn_preference` (main.py lines 88-90):
`self.user_preferences[user_id] = preference`, a direct key write. -/
def learn_preference (store : PrefStore) (user_id : String) (preference : Pref) :
    PrefStore :=
  fun k => if k = user_id then some preference else store k

/-- The literal default record (main.py line 96). -/
def defaultSuggestion : Pref := { mode := "fastest", accessibility := false }

/-- `PersonalizationAgent.get_personalized_suggestions` (main.py lines 92-96). -/
def get_personalized_suggestions (store : PrefStore) (user_id : String) : Pref :=
  match store user_id with
  | some p => p
  | none => defaultSuggestion

/-! ### Language (LanguageAgent) -/

/-- The internal phrase table `translations` (main.py lines 104-115).
Only its keys are ever consulted (`if language in translations`); the
phrase mappings themselves are dead data. -/
def translations : List (String × List (String × String)) :=
  [ ("si",
      [ ("Train + Bus", "කොමු ගිණුම + බස්")
      , ("Express Bus", "වේගවත් බස්")
      , ("Walk to", "ගමන් කරන්න")
      , ("duration", "කාලය") ])
  , ("ta",
      [ ("Train + Bus", "புகைவண்டி + பேருந்து")
      , ("Express Bus", "விரைவு பேருந்து") ]) ]

/-- Return shape of `translate_response`: either the wrapper dict
`{"translated": True, "language": l, "data": payload}` or the payload
itself, unchanged. -/
inductive Translated (α : Type) where
  | wrapped (translated : Bool) (language : String) (data : α)
  | plain (data : α)
deriving DecidableEq, Repr

/-- `LanguageAgent.translate_response` (main.py lines 102-121).  The
membership test `language in translations` checks the dict's keys; the
wrapper embeds the payload untouched and the phrase table is never
applied to it. -/
def translate_response {α : Type} (response : α) (language : String) :
    Translated α :=
  if translations.any (fun kv => kv.1 == language) then
    .wrapped true language response
  else
    .plain response

/-! ### Endpoints -/

/-- The nested payload handed to `translate_response` by `plan_journey`
(main.py lines 154-160). -/
structure JourneyPayload where
  origin : String
  destination : String
  routes : List RouteOption
  preference_applied : String
  accessibility_considered : Bool
deriving DecidableEq, Repr

/-- The success response of `POST /api/plan-journey` (main.py lines 162-168). -/
structure PlanResponse where
  success : Bool
  processed_by : String
  timestamp : String
  backend_status : Option JVal
  journey_options : Translated JourneyPayload
deriving DecidableEq, Repr

/-- `plan_journey` (main.py lines 139-168).  The handler is parametrised by
the outcome of the outbound health check, the current personalization
store, and the wall-clock timestamp string.  `Except.error` models an
exception escaping the handler (which FastAPI turns into an HTTP 500):
when `get_transport_data` returned `None`, the final
`transport_data.get("status")` raises `AttributeError`. -/
def plan_journey (outcome : HealthOutcome) (store : PrefStore) (now : String)
    (request : RouteRequest) : Except String PlanResponse :=
  let transport_data := get_transport_data outcome
  let _route_network := get_sri_lankan_routes
  let optimized_routes := optimize_route request
  let _personalized := get_personalized_suggestions store "default_user"
  let final_response := translate_response
    { origin := request.origin
      destination := request.destination
      routes := optimized_routes
      preference_applied := request.mode_preference
      accessibility_considered := request.accessibility_needs
      : JourneyPayload }
    request.language
  match transport_data with
  | none =>
      .error "AttributeError: 'NoneType' object has no attribute 'get'"
  | some td =>
      .ok { success := true
            processed_by := "7 AI agents"
            timestamp := now
            backend_status := jget td "status"
            journey_options := final_response }

/-- Response shape of `GET /api/agents/status` (main.py lines 173-182);
each agent entry is its `name` and `status` string. -/
structure AgentsStatusResponse where
  agents : List (String × String)
  total_agents : Nat
  system_health : String
deriving DecidableEq, Repr

/-- `agents_status` (main.py lines 170-182).  Parametrised by the ambient
state (health outcome, personalization store) to express that neither is
consulted: the body is a fixed literal. -/
def agents_status (_outcome : HealthOutcome) (_store : PrefStore) :
    AgentsStatusResponse :=
  { agents :=
      [ ("Data Aggregation Agent", "active")
      , ("Route Optimization Agent", "active")
      , ("Personalization Agent", "active")
      , ("Language & Accessibility Agent", "active") ]
    total_agents := 4
    system_health := "optimal" }

/-- The argument list of the one outbound HTTP call. -/
structure OutboundCall where
  url : String
  timeout : Option Nat
deriving DecidableEq, Repr

/-- The outbound call site (main.py line 35):
`requests.get("http://localhost:3000/api/health")` passes no `timeout`
keyword, so the `requests` library default of `None` (wait indefinitely)
applies. -/
def healthCheckCall : OutboundCall :=
  { url := "http://localhost:3000/api/health", timeout := none }

/-! ## Theorems for the claims -/

/-- Claim C1: the claim says every listed health-check failure class
(network error, timeout, non-200 status, malformed body) is substituted by
the fallback object and the handler still returns success.  The code
diverges on the non-200 class: `get_transport_data` only returns inside the
`if status_code == 200` branch and the bare `except` only catches
exceptions, so a completed non-200 response makes the function fall through
and return `None`; `plan_journey` then evaluates `None.get("status")`,
raising `AttributeError` (an HTTP 500), contradicting the claim.  The other
two classes (an exception from the GET, a body whose JSON parse raises) do
reach the fallback and yield a success response with `backend_status =
"backend_offline"`. -/
theorem plan_journey_non200_raises :
    plan_journey (.response 404 true []) emptyStore "2025-01-01T00:00:00"
        { origin := "Colombo", destination := "Galle" } =
      .error "AttributeError: 'NoneType' object has no attribute 'get'" ∧
    (plan_journey .netError emptyStore "2025-01-01T00:00:00"
        { origin := "Colombo", destination := "Galle" }).toOption.map
        (fun r => r.backend_status) = some (some (.str "backend_offline")) ∧
    (plan_journey (.response 200 false []) emptyStore "2025-01-01T00:00:00"
        { origin := "Colombo", destination := "Galle" }).toOption.map
        (fun r => r.backend_status) = some (some (.str "backend_offline")) :=
  ⟨rfl, rfl, rfl⟩

/-- Claim C2: with mode_preference = "cheapest", `optimize_route` returns
the two options in strictly ascending order of the integer parsed from the
cost string after replacing the "Rs. " prefix; concretely the Train + Bus
option (cost 180) precedes the Express Bus option (cost 250). -/
theorem optimize_route_cheapest_ascending (request : RouteRequest)
    (h : request.mode_preference = "cheapest") :
    optimize_route request = [trainBusOption, expressBusOption] ∧
    List.Chain' (fun a b => costKey a < costKey b) (optimize_route request) ∧
    costKey trainBusOption = 180 ∧ costKey expressBusOption = 250 := by
  have hr : optimize_route request = [trainBusOption, expressBusOption] := by
    unfold optimize_route
    rw [h]
    rfl
  refine ⟨hr, ?_, rfl, rfl⟩
  rw [hr]
  exact List.chain'_cons.mpr ⟨by decide, List.chain'_singleton _⟩

/-- Closed instance of the cheapest-ordering theorem at a concrete
request. -/
theorem optimize_route_cheapest_ascending_witness :
    optimize_route
        { origin := "Colombo", destination := "Galle", mode_preference := "cheapest" } =
      [trainBusOption, expressBusOption] :=
  (optimize_route_cheapest_ascending
    { origin := "Colombo", destination := "Galle", mode_preference := "cheapest" } rfl).1

/-- Claim C3: with mode_preference = "fastest", `optimize_route` orders the
two options by ascending lexicographic (code-point) comparison of the
duration strings, which for the literals "2h 15m" and "2h 45m" puts
Train + Bus before Express Bus. -/
theorem optimize_route_fastest_lexicographic (request : RouteRequest)
    (h : request.mode_preference = "fastest") :
    optimize_route request = [trainBusOption, expressBusOption] ∧
    List.Chain' (fun a b => strLtList a.duration.data b.duration.data = true)
      (optimize_route request) ∧
    trainBusOption.duration = "2h 15m" ∧ expressBusOption.duration = "2h 45m" := by
  have hr : optimize_route request = [trainBusOption, expressBusOption] := by
    unfold optimize_route
    rw [h]
    rfl
  refine ⟨hr, ?_, rfl, rfl⟩
  rw [hr]
  exact List.chain'_cons.mpr ⟨rfl, List.chain'_singleton _⟩

/-- Closed instance of the fastest-ordering theorem at a concrete
request (mode_preference defaults to "fastest"). -/
theorem optimize_route_fastest_lexicographic_witness :
    optimize_route { origin := "Colombo", destination := "Galle" } =
      [trainBusOption, expressBusOption] :=
  (optimize_route_fastest_lexicographic
    { origin := "Colombo", destination := "Galle" } rfl).1

/-- Claim C4: for a mode_preference that is neither "cheapest" nor
"fastest", `optimize_route` returns `base_routes` unsorted, i.e. the
original literal declaration order: Train + Bus first, Express Bus
second. -/
theorem optimize_route_other_preserves_order (request : RouteRequest)
    (h1 : request.mode_preference ≠ "cheapest")
    (h2 : request.mode_preference ≠ "fastest") :
    optimize_route request = base_routes ∧
    base_routes = [trainBusOption, expressBusOption] := by
  refine ⟨?_, rfl⟩
  unfold optimize_route
  rw [if_neg h1, if_neg h2]

/-- Closed instance of the unsorted-order theorem at mode_preference =
"scenic". -/
theorem optimize_route_other_preserves_order_witness :
    optimize_route
        { origin := "Colombo", destination := "Galle", mode_preference := "scenic" } =
      base_routes :=
  (optimize_route_other_preserves_order
    { origin := "Colombo", destination := "Galle", mode_preference := "scenic" }
    (by decide) (by decide)).1

/-- Claim C5: `translate_response` wraps the payload as
`{translated := true, language, data := payload}` exactly when the language
is "si" or "ta" (the keys of the internal phrase table), and returns the
payload itself for every other language; in both cases the payload is
embedded unchanged, so the phrase table is never applied to it. -/
theorem translate_response_wraps_or_passes {α : Type} (payload : α)
    (language : String) :
    translate_response payload language =
      if language = "si" ∨ language = "ta" then
        .wrapped true language payload
      else
        .plain payload := by
  by_cases h1 : language = "si"
  · subst h1; rfl
  by_cases h2 : language = "ta"
  · subst h2; rfl
  rw [if_neg (by simp [h1, h2])]
  unfold translate_response
  rw [if_neg (by simp [translations, Ne.symm h1, Ne.symm h2])]

/-- Claim C6: writing a preference record and reading it back returns
exactly the last-written record, a second write to the same key overwrites
the first, and a user id never written returns the literal default
`{mode := "fastest", accessibility := false}`. -/
theorem personalization_last_write_wins (store : PrefStore) (user_id : String)
    (r1 r2 : Pref) (h : store user_id = none) :
    get_personalized_suggestions (learn_preference store user_id r2) user_id = r2 ∧
    get_personalized_suggestions
        (learn_preference (learn_preference store user_id r1) user_id r2) user_id = r2 ∧
    get_personalized_suggestions store user_id = defaultSuggestion := by
  refine ⟨?_, ?_, ?_⟩
  · simp [get_personalized_suggestions, learn_preference]
  · simp [get_personalized_suggestions, learn_preference]
  · simp [get_personalized_suggestions, h, defaultSuggestion]

/-- Closed instance of the personalization theorem on the empty store. -/
theorem personalization_last_write_wins_witness :
    get_personalized_suggestions
        (learn_preference emptyStore "alice" { mode := "cheapest", accessibility := true })
        "alice" = { mode := "cheapest", accessibility := true } :=
  (personalization_last_write_wins emptyStore "alice"
    { mode := "fastest", accessibility := false }
    { mode := "cheapest", accessibility := true } rfl).1

/-- Claim C7: `GET /api/agents/status` returns, in every state (any
health-check outcome, any personalization store), exactly 4 agents, each
with literal status "active", and total_agents = 4. -/
theorem agents_status_fixed (outcome : HealthOutcome) (store : PrefStore) :
    (agents_status outcome store).agents.map Prod.snd =
      ["active", "active", "active", "active"] ∧
    (agents_status outcome store).agents.length = 4 ∧
    (agents_status outcome store).total_agents = 4 :=
  ⟨rfl, rfl, rfl⟩

/-- Claim C8: the claim says the outbound health-check GET is issued with a
bounded connect/read timeout.  The call site passes no `timeout` keyword,
so the `requests` default of `None` (wait indefinitely) applies — the claim
fails on the code.  The second conjunct records the part that does hold:
an exception raised by the GET (which is how a timeout, were one set, would
surface) lands on the offline-fallback object. -/
theorem health_check_call_has_no_timeout :
    healthCheckCall.timeout = none ∧
    get_transport_data .netError = some fallbackData :=
  ⟨rfl, rfl⟩

/-- Claim C9: two requests that differ only in accessibility_needs get the
same route-option list; `optimize_route` never reads that field. -/
theorem optimize_route_ignores_accessibility (r1 r2 : RouteRequest)
    (_ho : r1.origin = r2.origin) (_hd : r1.destination = r2.destination)
    (_hl : r1.language = r2.language)
    (hm : r1.mode_preference = r2.mode_preference) :
    optimize_route r1 = optimize_route r2 := by
  unfold optimize_route
  rw [hm]

/-- Closed instance of the accessibility-independence theorem on two
requests differing only in accessibility_needs. -/
theorem optimize_route_ignores_accessibility_witness :
    optimize_route
        { origin := "Colombo", destination := "Galle", accessibility_needs := true } =
      optimize_route
        { origin := "Colombo", destination := "Galle", accessibility_needs := false } :=
  optimize_route_ignores_accessibility
    { origin := "Colombo", destination := "Galle", accessibility_needs := true }
    { origin := "Colombo", destination := "Galle", accessibility_needs := false }
    rfl rfl rfl rfl

/-- Claim C10: the plan-journey response is independent of the
personalization store: with equal health-check outcome and timestamp, any
two store states produce identical responses, because the
`get_personalized_suggestions "default_user"` result is computed but never
used in the assembled response. -/
theorem plan_journey_ignores_personalization_store (outcome : HealthOutcome)
    (s1 s2 : PrefStore) (now : String) (request : RouteRequest) :
    plan_journey outcome s1 now request = plan_journey outcome s2 now request :=
  rfl

end SmartTransit
